import Mathlib

/-
Verification of the exclusive-access gate in customdevice.c: a mock char
device driver whose file can be opened by at most one caller at a time.
The C code is embedded shallowly: the global `custom_dev` struct becomes
an explicit state record threaded through every operation, kernel pointers
become abstract numeric identities with a wellformedness flag for NULLness,
and the interruptible mutex wait becomes an explicit oracle for whether the
blocking wait of `mutex_lock_interruptible` was interrupted.
-/

namespace CustomDevice

/-- State of the global `custom_dev` struct (customdevice.c, lines 40-56).
`lock` is the held/free status of the mutex, `cdevAddr` stands for the
address `&custom_dev.cdev`, `classPtr` and `devicePtr` record whether the
corresponding pointer fields are non-NULL, and `dev`/`major` are the
allocated device numbers. -/
structure CustomDev where
  lock : Bool
  cdevAddr : Nat
  classPtr : Bool
  devicePtr : Bool
  dev : Nat
  major : Nat
deriving DecidableEq

/-- The caller-presented identity: the inode the platform hands to
`open`/`release`. `imajor`/`iminor` are the device numbers of the inode
and `iCdev` stands for the pointer `inode->i_cdev`. -/
structure Inode where
  imajor : Nat
  iminor : Nat
  iCdev : Nat
deriving DecidableEq

/-- The first guard of `open` and `release` (lines 71 and 109):
`mj != custom_dev.major || mn < 0`.  The device numbers are C type
`unsigned int`, so `mn < 0` compares two unsigned values and is never
true; it is embedded as the literal comparison on `Nat`. -/
def devMissing (s : CustomDev) (mj mn : Nat) : Bool :=
  mj != s.major || decide (mn < 0)

/-- `open` (lines 66-92).  Checks major/minor, then the `i_cdev` binding,
then takes the mutex interruptibly.  `intr` is the oracle for whether a
blocking wait is interrupted by a signal.  `none` models the caller still
blocked on a held mutex (no return happens at this instant); `some (r, s)`
is a completed call returning `r` with new state `s`. -/
def open' (s : CustomDev) (ino : Inode) (intr : Bool) :
    Option (Int × CustomDev) :=
  if devMissing s ino.imajor ino.iminor then
    some (-1, s)
  else if ino.iCdev != s.cdevAddr then
    some (-1, s)
  else if s.lock then
    if intr then some (-1, s) else none
  else
    some (0, { s with lock := true })

/-- `release` (lines 104-129).  Same identity guards as `open`; then
unlocks the mutex only if it is currently locked, and returns 0. -/
def release (s : CustomDev) (ino : Inode) : Int × CustomDev :=
  if devMissing s ino.imajor ino.iminor then
    (-1, s)
  else if ino.iCdev != s.cdevAddr then
    (-1, s)
  else if s.lock then
    (0, { s with lock := false })
  else
    (0, s)

/-- `ioctl` (lines 140-144): prints a diagnostic line and returns 0,
ignoring the command code and the argument and touching no state. -/
def ioctl (s : CustomDev) (cmd : Nat) (arg : Nat) : Int × CustomDev :=
  (0, s)

/-- The externally visible resource-releasing calls made by `cleanup`,
in the order they can occur in its switch statement. -/
inductive Act where
  | unlock
  | mutexDestroy
  | deviceDestroy
  | cdevDel
  | classDestroy
  | unregRegion
deriving DecidableEq

/-- `cleanup` (lines 155-188): a switch on the failure-stage code `err`
that falls through from `case err` to the bottom.  Entry at 0 is the
module-exit path (unlock if held, destroy the mutex); entries 1-4 are the
rollback stages.  The C function only calls kernel destructors and does
not reset the struct fields, so the only state change is the unlock;
the performed resource releases are returned as an action list. -/
def cleanup (err : Nat) (s : CustomDev) : CustomDev × List Act :=
  let (s0, a0) :=
    if err ≤ 0 then
      if s.lock then
        ({ s with lock := false }, [Act.unlock, Act.mutexDestroy])
      else
        (s, [Act.mutexDestroy])
    else (s, [])
  let a1 := if err ≤ 1 && s0.devicePtr then [Act.deviceDestroy] else []
  let a2 := if err ≤ 2 then [Act.cdevDel] else []
  let a3 := if err ≤ 3 && s0.classPtr then [Act.classDestroy] else []
  let a4 := if err ≤ 4 && s0.dev != 0 then [Act.unregRegion] else []
  (s0, a0 ++ a1 ++ a2 ++ a3 ++ a4)

/-- The static initializer of `custom_dev` (lines 50-56): NULL pointers,
zero numbers, mutex not yet initialized (free).  `addr` is the fixed
address of the embedded `cdev` field. -/
def initialDev (addr : Nat) : CustomDev :=
  { lock := false, cdevAddr := addr, classPtr := false,
    devicePtr := false, dev := 0, major := 0 }

/-- `MAJOR(dev)`: the high 12 bits of a `dev_t` (minor occupies 20 bits). -/
def majorOf (dev : Nat) : Nat := dev >>> 20

/-- Failure oracle for the four fallible platform calls made by
`custom_init`: `alloc_chrdev_region`, `class_create`, `cdev_add`,
`device_create`. -/
structure FailSpec where
  allocFail : Bool
  classFail : Bool
  cdevAddFail : Bool
  deviceFail : Bool
deriving DecidableEq

/-- `custom_init` (lines 201-251).  Runs the setup steps in order inside
the do-while; on the first failure it records the stage code (4, 3, 2 or
1), breaks out, calls `cleanup err` and returns `err`; on full success it
returns 0 and performs no cleanup.  `newDev` is the `dev_t` the kernel
would hand back from a successful `alloc_chrdev_region` (nonzero, since a
dynamically allocated major is positive). -/
def custom_init (f : FailSpec) (newDev : Nat) (addr : Nat) :
    Nat × CustomDev × List Act :=
  let s := initialDev addr
  if f.allocFail then
    let (s', as) := cleanup 4 s
    (4, s', as)
  else
    let s := { s with dev := newDev, major := majorOf newDev }
    if f.classFail then
      let (s', as) := cleanup 3 s
      (3, s', as)
    else
      let s := { s with classPtr := true }
      if f.cdevAddFail then
        let (s', as) := cleanup 2 s
        (2, s', as)
      else if f.deviceFail then
        let (s', as) := cleanup 1 s
        (1, s', as)
      else
        let s := { s with devicePtr := true }
        (0, s, [])

/-- `custom_exit` (lines 261-264): teardown is exactly `cleanup 0`. -/
def custom_exit (s : CustomDev) : CustomDev × List Act :=
  cleanup 0 s

/-- The four resources of the four fallible setup steps of `custom_init`:
the chrdev region, the device class, the live cdev dispatch binding, the
device node. -/
inductive Res where
  | region
  | cls
  | cdevBinding
  | device
deriving DecidableEq

/-- The resource a cleanup action releases, if any. -/
def undoOf : Act → Option Res
  | Act.unregRegion => some Res.region
  | Act.classDestroy => some Res.cls
  | Act.cdevDel => some Res.cdevBinding
  | Act.deviceDestroy => some Res.device
  | _ => none

/-- The resources released by a cleanup run, in execution order. -/
def rolledBack (acts : List Act) : List Res :=
  acts.filterMap undoOf

/-- The resources of the four setup steps that were successfully acquired
before `custom_init` stopped, in acquisition order. -/
def acquired (f : FailSpec) : List Res :=
  if f.allocFail then []
  else Res.region ::
    (if f.classFail then []
     else Res.cls ::
       (if f.cdevAddFail then []
        else Res.cdevBinding ::
          (if f.deviceFail then [] else [Res.device])))

/-- Events a linearized history of calls into the gate can contain.  An
`acquire` carries the interruption oracle for its possible wait. -/
inductive Event where
  | acquire (ino : Inode) (intr : Bool)
  | release (ino : Inode)
  | command (cmd : Nat) (arg : Nat)

/-- A gate state together with the ghost count of successfully
outstanding acquires (sessions opened and not yet released). -/
structure Gate where
  dev : CustomDev
  active : Nat

/-- One event of a history: a completed `open` that returns 0 starts a
session; a `release` that returns 0 while the lock was held ends the
session; an `open` that is still blocked (`none`) changes nothing at this
instant. -/
def stepEvent (g : Gate) (e : Event) : Gate :=
  match e with
  | Event.acquire ino intr =>
    match open' g.dev ino intr with
    | none => g
    | some (r, s') =>
      { dev := s', active := if r == 0 then g.active + 1 else g.active }
  | Event.release ino =>
    let rs := release g.dev ino
    { dev := rs.2,
      active := if rs.1 == 0 && g.dev.lock then g.active - 1 else g.active }
  | Event.command c a =>
    { g with dev := (ioctl g.dev c a).2 }

/-- Run a history from a gate state with no outstanding session. -/
def runEvents (s : CustomDev) (es : List Event) : Gate :=
  es.foldl stepEvent { dev := s, active := 0 }

/-- The mutual-exclusion invariant: the ghost session count is exactly
the lock's held indicator. -/
def gateInv (g : Gate) : Prop :=
  g.active = if g.dev.lock then 1 else 0

/-- Claim C6: for every command code and argument, and regardless of the
lock's held/free status, `ioctl` returns the fixed success result 0,
leaves the state (in particular the lock) unchanged, and its result does
not depend on the command code or the argument. -/
theorem ioctl_pure (s : CustomDev) (cmd arg cmd' arg' : Nat) :
    ioctl s cmd arg = (0, s) ∧
    (ioctl s cmd arg).2.lock = s.lock ∧
    ioctl s cmd arg = ioctl s cmd' arg' := by
  refine ⟨rfl, rfl, rfl⟩

/-- Claim C9: the minor-number half of the existence guard is vacuous:
`mn < 0` is false for every unsigned minor, the guard depends only on the
major number, and `open` and `release` are unchanged when only the
inode's minor number changes. -/
theorem minor_check_vacuous (s : CustomDev) (mj mn mn' : Nat) :
    decide (mn < 0) = false ∧
    devMissing s mj mn = devMissing s mj mn' ∧
    (∀ (ino : Inode) (intr : Bool),
      open' s { ino with iminor := mn } intr = open' s ino intr) ∧
    (∀ ino : Inode, release s { ino with iminor := mn } = release s ino) := by
  refine ⟨by simp, by simp [devMissing], ?_, ?_⟩
  · intro ino intr
    simp [open', devMissing]
  · intro ino
    simp [release, devMissing]

/-- Claim C3: with a matching identity, `release` on a free lock is a
no-op returning 0 rather than an error, and a second `release` right
after any `release` also returns 0 and changes nothing, so subsequent
`open` behavior is unchanged. -/
theorem release_idempotent (s : CustomDev) (ino : Inode)
    (hmj : ino.imajor = s.major) (hcd : ino.iCdev = s.cdevAddr) :
    (s.lock = false → release s ino = (0, s)) ∧
    release (release s ino).2 ino = (0, (release s ino).2) ∧
    (∀ (ino' : Inode) (intr : Bool),
      open' (release (release s ino).2 ino).2 ino' intr
        = open' (release s ino).2 ino' intr) := by
  refine ⟨?_, ?_, ?_⟩
  · intro hfree
    simp [release, devMissing, hmj, hcd, hfree]
  · by_cases hl : s.lock <;>
      simp [release, devMissing, hmj, hcd, hl]
  · intro ino' intr
    by_cases hl : s.lock <;>
      simp [release, devMissing, hmj, hcd, hl]

/-- Witness for claim C3 at a concrete matching state with the lock
held: the double release returns 0 and is a fixed point. -/
theorem release_idempotent_witness :
    release
        (release { lock := true, cdevAddr := 7, classPtr := true,
                   devicePtr := true, dev := 1048576, major := 1 }
           { imajor := 1, iminor := 0, iCdev := 7 }).2
        { imajor := 1, iminor := 0, iCdev := 7 }
      = (0, (release { lock := true, cdevAddr := 7, classPtr := true,
                       devicePtr := true, dev := 1048576, major := 1 }
               { imajor := 1, iminor := 0, iCdev := 7 }).2) :=
  (release_idempotent
      { lock := true, cdevAddr := 7, classPtr := true,
        devicePtr := true, dev := 1048576, major := 1 }
      { imajor := 1, iminor := 0, iCdev := 7 } rfl rfl).2.1

/-- Claim C4: an `open` with matching identity whose blocking wait on the
held lock is interrupted returns the failure value and leaves the state
exactly as it was, so any subsequent call behaves as if the interrupted
call had never happened. -/
theorem interrupted_open_no_effect (s : CustomDev) (ino : Inode)
    (hmj : ino.imajor = s.major) (hcd : ino.iCdev = s.cdevAddr)
    (hheld : s.lock = true) :
    open' s ino true = some (-1, s) := by
  simp [open', devMissing, hmj, hcd, hheld]

/-- Witness for claim C4 at a concrete held state. -/
theorem interrupted_open_no_effect_witness :
    open' { lock := true, cdevAddr := 3, classPtr := true,
            devicePtr := true, dev := 1048576, major := 1 }
        { imajor := 1, iminor := 5, iCdev := 3 } true
      = some (-1, { lock := true, cdevAddr := 3, classPtr := true,
                    devicePtr := true, dev := 1048576, major := 1 }) :=
  interrupted_open_no_effect
    { lock := true, cdevAddr := 3, classPtr := true,
      devicePtr := true, dev := 1048576, major := 1 }
    { imajor := 1, iminor := 5, iCdev := 3 } rfl rfl rfl

/-- Claim C5: when the presented identity does not match — the major
number differs from the gate's, or the inode's cdev binding is not the
gate's cdev — both `open` and `release` return the failure value and
leave the state exactly as it was. -/
theorem identity_mismatch_no_change (s : CustomDev) (ino : Inode)
    (hmis : ino.imajor ≠ s.major ∨ ino.iCdev ≠ s.cdevAddr) :
    (∀ intr : Bool, open' s ino intr = some (-1, s)) ∧
    release s ino = (-1, s) := by
  rcases hmis with h | h
  · refine ⟨fun intr => ?_, ?_⟩ <;>
      simp [open', release, devMissing, h]
  · by_cases hmj : ino.imajor = s.major <;>
      refine ⟨fun intr => ?_, ?_⟩ <;>
        simp [open', release, devMissing, hmj, h]

/-- Witness for claim C5: a concrete inode with a wrong cdev binding is
rejected by `open` with no state change. -/
theorem identity_mismatch_no_change_witness :
    open' { lock := false, cdevAddr := 3, classPtr := true,
            devicePtr := true, dev := 1048576, major := 1 }
        { imajor := 1, iminor := 0, iCdev := 4 } false
      = some (-1, { lock := false, cdevAddr := 3, classPtr := true,
                    devicePtr := true, dev := 1048576, major := 1 }) :=
  (identity_mismatch_no_change
      { lock := false, cdevAddr := 3, classPtr := true,
        devicePtr := true, dev := 1048576, major := 1 }
      { imajor := 1, iminor := 0, iCdev := 4 }
      (Or.inr (by decide))).1 false

/-- Claim C8: `release`, as invoked by the platform's close path with the
gate's own inode (matching identity), returns 0 in every state: the close
entry point never fails from the gate's side. -/
theorem on_close_never_fails (s : CustomDev) (ino : Inode)
    (hmj : ino.imajor = s.major) (hcd : ino.iCdev = s.cdevAddr) :
    (release s ino).1 = 0 := by
  by_cases hl : s.lock <;>
    simp [release, devMissing, hmj, hcd, hl]

/-- Witness for claim C8 at a concrete matching state. -/
theorem on_close_never_fails_witness :
    (release { lock := true, cdevAddr := 9, classPtr := true,
               devicePtr := true, dev := 1048576, major := 1 }
        { imajor := 1, iminor := 0, iCdev := 9 }).1 = 0 :=
  on_close_never_fails
    { lock := true, cdevAddr := 9, classPtr := true,
      devicePtr := true, dev := 1048576, major := 1 }
    { imajor := 1, iminor := 0, iCdev := 9 } rfl rfl

/-- Claim C10: every completed failing `open` and every failing `release`
returns the single value -1, so the identity-mismatch, instance-mismatch
and interrupted-wait failures are indistinguishable by return value. -/
theorem failures_all_return_minus_one (s : CustomDev) (ino : Inode)
    (intr : Bool) :
    (∀ r s', open' s ino intr = some (r, s') → r = 0 ∨ r = -1) ∧
    ((release s ino).1 = 0 ∨ (release s ino).1 = -1) ∧
    (ino.imajor ≠ s.major →
      open' s ino intr = some (-1, s) ∧ release s ino = (-1, s)) ∧
    (ino.imajor = s.major → ino.iCdev ≠ s.cdevAddr →
      open' s ino intr = some (-1, s) ∧ release s ino = (-1, s)) ∧
    (ino.imajor = s.major → ino.iCdev = s.cdevAddr → s.lock = true →
      open' s ino true = some (-1, s)) := by
  refine ⟨?_, ?_, ?_, ?_, ?_⟩
  · intro r s' h
    unfold open' at h
    split at h
    · exact Or.inr (by cases h; rfl)
    · split at h
      · exact Or.inr (by cases h; rfl)
      · split at h
        · split at h
          · exact Or.inr (by cases h; rfl)
          · exact absurd h (by simp)
        · exact Or.inl (by cases h; rfl)
  · unfold release
    split
    · exact Or.inr rfl
    · split
      · exact Or.inr rfl
      · split
        · exact Or.inl rfl
        · exact Or.inl rfl
  · intro h
    constructor <;> simp [open', release, devMissing, h]
  · intro hmj h
    constructor <;> simp [open', release, devMissing, hmj, h]
  · intro hmj hcd hl
    simp [open', devMissing, hmj, hcd, hl]

/-- Witness for claim C10: at a concrete state, the major-mismatch, the
cdev-mismatch and the interrupted-wait failures all return -1. -/
theorem failures_all_return_minus_one_witness :
    (open' { lock := true, cdevAddr := 3, classPtr := true,
             devicePtr := true, dev := 1048576, major := 1 }
        { imajor := 2, iminor := 0, iCdev := 3 } false
      = some (-1, { lock := true, cdevAddr := 3, classPtr := true,
                    devicePtr := true, dev := 1048576, major := 1 })) ∧
    (release { lock := true, cdevAddr := 3, classPtr := true,
               devicePtr := true, dev := 1048576, major := 1 }
        { imajor := 1, iminor := 0, iCdev := 5 }
      = (-1, { lock := true, cdevAddr := 3, classPtr := true,
               devicePtr := true, dev := 1048576, major := 1 })) ∧
    (open' { lock := true, cdevAddr := 3, classPtr := true,
             devicePtr := true, dev := 1048576, major := 1 }
        { imajor := 1, iminor := 0, iCdev := 3 } true
      = some (-1, { lock := true, cdevAddr := 3, classPtr := true,
                    devicePtr := true, dev := 1048576, major := 1 })) := by
  refine ⟨?_, ?_, ?_⟩
  · exact ((failures_all_return_minus_one
        { lock := true, cdevAddr := 3, classPtr := true,
          devicePtr := true, dev := 1048576, major := 1 }
        { imajor := 2, iminor := 0, iCdev := 3 } false).2.2.1
        (by decide)).1
  · exact ((failures_all_return_minus_one
        { lock := true, cdevAddr := 3, classPtr := true,
          devicePtr := true, dev := 1048576, major := 1 }
        { imajor := 1, iminor := 0, iCdev := 5 } false).2.2.2.1
        rfl (by decide)).2
  · exact (failures_all_return_minus_one
        { lock := true, cdevAddr := 3, classPtr := true,
          devicePtr := true, dev := 1048576, major := 1 }
        { imajor := 1, iminor := 0, iCdev := 3 } true).2.2.2.2
        rfl rfl rfl

/-- A completed `open` either fails with -1 and an unchanged state, or
succeeds from a free lock and marks it held; otherwise the caller is
still blocked. -/
theorem open'_cases (s : CustomDev) (ino : Inode) (intr : Bool) :
    open' s ino intr = none ∨
    open' s ino intr = some (-1, s) ∨
    (s.lock = false ∧ open' s ino intr = some (0, { s with lock := true })) := by
  unfold open'
  by_cases h1 : devMissing s ino.imajor ino.iminor
  · exact Or.inr (Or.inl (by simp [h1]))
  · by_cases h2 : (ino.iCdev != s.cdevAddr) = true
    · exact Or.inr (Or.inl (by simp [h1, h2]))
    · by_cases hl : s.lock
      · cases intr
        · exact Or.inl (by simp [h1, h2, hl])
        · exact Or.inr (Or.inl (by simp [h1, h2, hl]))
      · exact Or.inr (Or.inr ⟨by simpa using hl, by simp [h1, h2, hl]⟩)

/-- `release` either fails with -1 and an unchanged state, or returns 0,
unlocking a held lock or leaving a free lock untouched. -/
theorem release_cases (s : CustomDev) (ino : Inode) :
    release s ino = (-1, s) ∨
    (s.lock = true ∧ release s ino = (0, { s with lock := false })) ∨
    (s.lock = false ∧ release s ino = (0, s)) := by
  unfold release
  by_cases h1 : devMissing s ino.imajor ino.iminor
  · exact Or.inl (by simp [h1])
  · by_cases h2 : (ino.iCdev != s.cdevAddr) = true
    · exact Or.inl (by simp [h1, h2])
    · by_cases hl : s.lock
      · exact Or.inr (Or.inl ⟨hl, by simp [h1, h2, hl]⟩)
      · exact Or.inr (Or.inr ⟨by simpa using hl, by simp [h1, h2, hl]⟩)

/-- Every event preserves the mutual-exclusion invariant. -/
theorem stepEvent_inv (g : Gate) (e : Event) (h : gateInv g) :
    gateInv (stepEvent g e) := by
  cases e with
  | acquire ino intr =>
    rcases open'_cases g.dev ino intr with ho | ho | ⟨hfree, ho⟩
    · simpa [stepEvent, ho] using h
    · simpa [stepEvent, ho] using h
    · have : g.active = 0 := by simpa [gateInv, hfree] using h
      simp [stepEvent, ho, gateInv, this]
  | release ino =>
    rcases release_cases g.dev ino with hr | ⟨hheld, hr⟩ | ⟨hfree, hr⟩
    · simpa [stepEvent, hr] using h
    · have : g.active = 1 := by simpa [gateInv, hheld] using h
      simp [stepEvent, hr, gateInv, hheld, this]
    · have : g.active = 0 := by simpa [gateInv, hfree] using h
      simp [stepEvent, hr, gateInv, hfree, this]
  | command c a =>
    simpa [stepEvent, ioctl, gateInv] using h

/-- Folding any event list preserves the invariant. -/
theorem foldl_stepEvent_inv (es : List Event) (g : Gate) (h : gateInv g) :
    gateInv (es.foldl stepEvent g) := by
  induction es generalizing g with
  | nil => exact h
  | cons e es ih => exact ih (stepEvent g e) (stepEvent_inv g e h)

/-- Claim C1: along every linearized history of acquire/release/command
events started with the lock free, at most one acquire is successfully
outstanding at any instant; moreover a completed `open` can return 0
only when the lock is free at that instant, and its success marks the
lock held. -/
theorem at_most_one_outstanding (s : CustomDev) (es : List Event)
    (hfree : s.lock = false) :
    (runEvents s es).active ≤ 1 ∧
    (∀ (d : CustomDev) (ino : Inode) (intr : Bool) (d' : CustomDev),
      open' d ino intr = some (0, d') → d.lock = false ∧ d'.lock = true) := by
  constructor
  · have h0 : gateInv { dev := s, active := 0 } := by simp [gateInv, hfree]
    have h := foldl_stepEvent_inv es { dev := s, active := 0 } h0
    unfold gateInv at h
    unfold runEvents
    rw [h]
    split <;> omega
  · intro d ino intr d' h
    rcases open'_cases d ino intr with ho | ho | ⟨hf, ho⟩
    · rw [ho] at h; exact absurd h (by simp)
    · rw [ho] at h
      exact absurd h (by simp)
    · rw [ho] at h
      have := (Option.some.injEq _ _).mp h
      have hd' : d' = { d with lock := true } :=
        (congrArg Prod.snd this).symm
      exact ⟨hf, by rw [hd']⟩

/-- Witness for claim C1: a concrete history — a successful acquire, a
second acquire that blocks, a release — keeps the outstanding count at
most 1, and the concrete successful acquire went from a free lock to a
held one. -/
theorem at_most_one_outstanding_witness :
    (runEvents
        { lock := false, cdevAddr := 3, classPtr := true,
          devicePtr := true, dev := 1048576, major := 1 }
        [Event.acquire { imajor := 1, iminor := 0, iCdev := 3 } false,
         Event.acquire { imajor := 1, iminor := 0, iCdev := 3 } false,
         Event.release { imajor := 1, iminor := 0, iCdev := 3 }]).active ≤ 1 ∧
    ((({ lock := false, cdevAddr := 3, classPtr := true,
         devicePtr := true, dev := 1048576, major := 1 } : CustomDev).lock
        = false) ∧
      (({ lock := true, cdevAddr := 3, classPtr := true,
          devicePtr := true, dev := 1048576, major := 1 } : CustomDev).lock
        = true)) := by
  have h := at_most_one_outstanding
    { lock := false, cdevAddr := 3, classPtr := true,
      devicePtr := true, dev := 1048576, major := 1 }
    [Event.acquire { imajor := 1, iminor := 0, iCdev := 3 } false,
     Event.acquire { imajor := 1, iminor := 0, iCdev := 3 } false,
     Event.release { imajor := 1, iminor := 0, iCdev := 3 }] rfl
  exact ⟨h.1,
    h.2 { lock := false, cdevAddr := 3, classPtr := true,
          devicePtr := true, dev := 1048576, major := 1 }
      { imajor := 1, iminor := 0, iCdev := 3 } false
      { lock := true, cdevAddr := 3, classPtr := true,
        devicePtr := true, dev := 1048576, major := 1 } (by decide)⟩

/-- Claim C7: from any registered state (class, device node and device
numbers all established), teardown first unlocks the mutex when it is
held and only then destroys it, then releases the remaining resources in
strict reverse order of their acquisition — device node, cdev dispatch
binding, class grouping, chrdev region — ends with the lock free, and
never fails; and each guarded teardown step is skipped rather than run
when its resource was never created. -/
theorem teardown_reverses_init (s : CustomDev)
    (hc : s.classPtr = true) (hd : s.devicePtr = true) (hz : s.dev ≠ 0) :
    (custom_exit s).2
      = (if s.lock then [Act.unlock] else []) ++
        [Act.mutexDestroy, Act.deviceDestroy, Act.cdevDel,
         Act.classDestroy, Act.unregRegion] ∧
    (custom_exit s).1.lock = false ∧
    (∀ t : CustomDev, t.devicePtr = false →
      Act.deviceDestroy ∉ (custom_exit t).2) ∧
    (∀ t : CustomDev, t.classPtr = false →
      Act.classDestroy ∉ (custom_exit t).2) ∧
    (∀ t : CustomDev, t.dev = 0 →
      Act.unregRegion ∉ (custom_exit t).2) := by
  have hb : (s.dev != 0) = true := by simpa using hz
  refine ⟨?_, ?_, ?_, ?_, ?_⟩
  · by_cases hl : s.lock <;> simp [custom_exit, cleanup, hc, hd, hb, hl]
  · by_cases hl : s.lock <;> simp [custom_exit, cleanup, hl]
  · intro t ht
    by_cases hl : t.lock <;> simp [custom_exit, cleanup, ht, hl]
  · intro t ht
    by_cases hl : t.lock <;> simp [custom_exit, cleanup, ht, hl]
  · intro t ht
    by_cases hl : t.lock <;> simp [custom_exit, cleanup, ht, hl]

/-- Witness for claim C7 at a concrete registered state with the lock
held: unlock happens first, then the four destructions in reverse
acquisition order. -/
theorem teardown_reverses_init_witness :
    (custom_exit { lock := true, cdevAddr := 3, classPtr := true,
                   devicePtr := true, dev := 1048576, major := 1 }).2
      = [Act.unlock, Act.mutexDestroy, Act.deviceDestroy, Act.cdevDel,
         Act.classDestroy, Act.unregRegion] := by
  have h := (teardown_reverses_init
    { lock := true, cdevAddr := 3, classPtr := true,
      devicePtr := true, dev := 1048576, major := 1 }
    rfl rfl (by decide)).1
  simpa using h

/-- The extra rollback action `custom_init` performs beyond the acquired
resources: when the failure is at `cdev_add` (stage code 2), `cleanup`
enters the switch at case 2 and runs the unguarded `cdev_del` even
though the cdev binding was never added. -/
def extraCdevDel (f : FailSpec) : List Res :=
  if !f.allocFail && !f.classFail && f.cdevAddFail then [Res.cdevBinding]
  else []

/-- Counterexample to claim C2 as stated: when `custom_init` fails at the
third setup step (`cdev_add`), the rollback releases the never-acquired
cdev binding in addition to the class and the region, so the rolled-back
list is not the reverse of the successfully acquired resources. -/
theorem rollback_exact_counterexample :
    rolledBack (custom_init
        { allocFail := false, classFail := false,
          cdevAddFail := true, deviceFail := false } 1048576 3).2.2
      = [Res.cdevBinding, Res.cls, Res.region] ∧
    (acquired
        { allocFail := false, classFail := false,
          cdevAddFail := true, deviceFail := false }).reverse
      = [Res.cls, Res.region] ∧
    (custom_init
        { allocFail := false, classFail := false,
          cdevAddFail := true, deviceFail := false } 1048576 3).1 ≠ 0 ∧
    rolledBack (custom_init
        { allocFail := false, classFail := false,
          cdevAddFail := true, deviceFail := false } 1048576 3).2.2
      ≠ (acquired
        { allocFail := false, classFail := false,
          cdevAddFail := true, deviceFail := false }).reverse := by
  decide

/-- Claim C2, amended: on every failure of `custom_init`, the rollback is
the successfully acquired setup resources in strict reverse order of
acquisition, except that a failure at `cdev_add` additionally runs
`cdev_del` on the never-added binding first; `custom_init` then returns
the nonzero failure stage.  In particular, a failure at the second step
(`class_create`) rolls back exactly the first step's resource, the
chrdev region. -/
theorem rollback_reverse_order (f : FailSpec) (newDev addr : Nat)
    (hnz : newDev ≠ 0) (hfail : (custom_init f newDev addr).1 ≠ 0) :
    rolledBack (custom_init f newDev addr).2.2
      = extraCdevDel f ++ (acquired f).reverse ∧
    (f.allocFail = false → f.classFail = true →
      rolledBack (custom_init f newDev addr).2.2 = [Res.region]) := by
  have hb : (newDev != 0) = true := by simpa using hnz
  rcases f with ⟨a, c, d, e⟩
  cases a <;> cases c <;> cases d <;> cases e <;>
    simp_all [custom_init, cleanup, rolledBack, undoOf, acquired,
      extraCdevDel, initialDev, majorOf]

/-- Witness for the amended claim C2 at the spec's own scenario: failure
at the second setup step (`class_create`) rolls back exactly the chrdev
region. -/
theorem rollback_reverse_order_witness :
    rolledBack (custom_init
        { allocFail := false, classFail := true,
          cdevAddFail := false, deviceFail := false } 1048576 3).2.2
      = [Res.region] :=
  (rollback_reverse_order
      { allocFail := false, classFail := true,
        cdevAddFail := false, deviceFail := false } 1048576 3
      (by decide) (by decide)).2 rfl rfl

end CustomDevice
